import Mathlib

/-
Shallow embedding of the ticktick-mcp repository core
(src/ticktick_mcp/client.py and src/ticktick_mcp/helpers.py).

Python values with the dynamic shapes the code branches on are embedded as
an inductive type; machine effects (raising, logging, blocking reads,
constructor calls) are made explicit: a Python call that may raise becomes
an Except value, logging becomes an explicit log list in the result, and
each external construction carries a counter so that "construct at most
once" is a provable statement.
-/

/-- PyVal is a Python value as the helpers see one: the code branches on
isinstance dict, isinstance list, None, and "anything else" (the string
form is all it uses of the rest). -/
inductive PyVal where
  | str (s : String)
  | dict (fields : List (String × PyVal))
  | list (elems : List PyVal)
  | pynone
  | pybool (b : Bool)
  | pyint (n : Int)

/-- PyScalar is a hashable Python scalar: the values a Python set can hold.
The project-identifier set in helpers.py is a Python set, so its elements
are scalars (strings in practice). -/
inductive PyScalar where
  | str (s : String)
  | pynone
  | pybool (b : Bool)
  | pyint (n : Int)
deriving DecidableEq, Repr

/-- Python truthiness of a PyVal: empty containers, empty strings, zero,
False and None are falsy. -/
def PyVal.truthy : PyVal → Bool
  | PyVal.str s => s != ""
  | PyVal.dict fs => !fs.isEmpty
  | PyVal.list xs => !xs.isEmpty
  | PyVal.pynone => false
  | PyVal.pybool b => b
  | PyVal.pyint n => n != 0

/-- Python truthiness of a PyScalar. -/
def PyScalar.truthy : PyScalar → Bool
  | PyScalar.str s => s != ""
  | PyScalar.pynone => false
  | PyScalar.pybool b => b
  | PyScalar.pyint n => n != 0

/-- Proj is one entry of the project-state snapshot: a Python dict. The
code only reads its id key via p.get. -/
abbrev Proj := List (String × PyScalar)

/-- pget models Python dict.get(k) with default None. -/
def pget (p : Proj) (k : String) : PyScalar :=
  match p.find? (fun kv => kv.fst == k) with
  | some kv => kv.snd
  | none => PyScalar.pynone

/-- pyStr models Python str() on the values format_response can pass to it
(the dict and list arms are never reached from format_response, which
sends those to json.dumps instead). -/
def pyStr : PyVal → String
  | PyVal.str s => s
  | PyVal.pybool true => "True"
  | PyVal.pybool false => "False"
  | PyVal.pyint n => toString n
  | PyVal.pynone => "None"
  | PyVal.dict _ => ""
  | PyVal.list _ => ""

/-- startsWithChars a b is true when a is an initial segment of b. -/
def startsWithChars : List Char → List Char → Bool
  | [], _ => true
  | _ :: _, [] => false
  | a :: as, b :: bs => a == b && startsWithChars as bs

/-- hasSub needle hay is true when needle occurs contiguously in hay. -/
def hasSub (needle : List Char) : List Char → Bool
  | [] => needle.isEmpty
  | c :: tl => startsWithChars needle (c :: tl) || hasSub needle tl

/-- strHasSub hay needle decides whether needle is a substring of hay. -/
def strHasSub (hay needle : String) : Bool := hasSub needle.toList hay.toList

/- ---------------------------------------------------------------------
client.py
--------------------------------------------------------------------- -/

/-- Creds models the five config values imported from config.py; a missing
or empty environment value is the empty string (falsy, as in Python). -/
structure Creds where
  CLIENT_ID : String
  CLIENT_SECRET : String
  REDIRECT_URI : String
  USERNAME : String
  PASSWORD : String
deriving DecidableEq, Repr

/-- credsPresent mirrors all of CLIENT_ID, CLIENT_SECRET, REDIRECT_URI,
USERNAME, PASSWORD being truthy (client.py lines 62 and 109). -/
def credsPresent (c : Creds) : Bool :=
  c.CLIENT_ID != "" && c.CLIENT_SECRET != "" && c.REDIRECT_URI != "" &&
  c.USERNAME != "" && c.PASSWORD != ""

/-- World fixes, for one process, the credentials and the outcome of each
external constructor call: oauth2_ctor is what constructing
MCPFriendlyOAuth2 does (it performs the token fetch, so it may raise) and
client_ctor is what constructing TickTickClient does, yielding a handle
identified by a Nat. -/
structure World where
  creds : Creds
  oauth2_ctor : Except String Unit
  client_ctor : Except String Nat

/-- CLog is one log record emitted by client.py. -/
inductive CLog where
  | errMissingCreds
  | infoInitOAuth
  | infoInitClient
  | infoInitSuccess
  | errInitException (msg : String)
  | warnClientFailed
  | errAuthFailed (msg : String)
  | infoAuthSuccess
deriving DecidableEq, Repr

/-- Effects counts the observable work of a call: credential checks,
constructor attempts for the OAuth2 negotiator and for the TickTick
client (each such attempt is network or file I O), and the log records. -/
structure Effects where
  credChecks : Nat
  oauthAttempts : Nat
  clientAttempts : Nat
  logs : List CLog
deriving DecidableEq, Repr

/-- Effects.comb accumulates the effects of two consecutive calls. -/
def Effects.comb (a b : Effects) : Effects :=
  ⟨a.credChecks + b.credChecks, a.oauthAttempts + b.oauthAttempts,
   a.clientAttempts + b.clientAttempts, a.logs ++ b.logs⟩

/-- noEffects is the effect of doing nothing. -/
def noEffects : Effects := ⟨0, 0, 0, []⟩

/-- SingletonState models the class attributes of TickTickClientSingleton:
inst is cls instance (the Optional TickTickClient handle) and
initialized is cls initialized flag. -/
structure SingletonState where
  inst : Option Nat
  initialized : Bool
deriving DecidableEq, Repr

/-- freshState is the state at process start (instance None, flag False). -/
def freshState : SingletonState := ⟨none, false⟩

/-- singletonInit mirrors TickTickClientSingleton init (client.py lines
104 to 134): return early when already initialized; when a credential is
missing, log an error, clear the instance and mark initialized; otherwise
construct the OAuth2 negotiator then the client inside try/except, any
exception leaving the instance None, and the finally block marking
initialized in every branch. -/
def singletonInit (w : World) (s : SingletonState) : SingletonState × Effects :=
  if s.initialized then (s, noEffects)
  else if !credsPresent w.creds then
    ({ inst := none, initialized := true },
     { credChecks := 1, oauthAttempts := 0, clientAttempts := 0,
       logs := [CLog.errMissingCreds] })
  else
    match w.oauth2_ctor with
    | Except.error e =>
        ({ inst := none, initialized := true },
         { credChecks := 1, oauthAttempts := 1, clientAttempts := 0,
           logs := [CLog.infoInitOAuth, CLog.errInitException e] })
    | Except.ok _ =>
        match w.client_ctor with
        | Except.error e =>
            ({ inst := none, initialized := true },
             { credChecks := 1, oauthAttempts := 1, clientAttempts := 1,
               logs := [CLog.infoInitOAuth, CLog.infoInitClient,
                        CLog.errInitException e] })
        | Except.ok h =>
            ({ inst := some h, initialized := true },
             { credChecks := 1, oauthAttempts := 1, clientAttempts := 1,
               logs := [CLog.infoInitOAuth, CLog.infoInitClient,
                        CLog.infoInitSuccess] })

/-- get_client mirrors TickTickClientSingleton.get_client (client.py lines
136 to 143): run init when not yet initialized, warn when the instance is
None, return the instance. -/
def get_client (w : World) (s : SingletonState) : Option Nat × SingletonState × Effects :=
  let p := if !s.initialized then singletonInit w s else (s, noEffects)
  let eff := if p.1.inst = none then
      { p.2 with logs := p.2.logs ++ [CLog.warnClientFailed] }
    else p.2
  (p.1.inst, p.1, eff)

/-- runCalls threads n consecutive get_client calls through the singleton
state, accumulating effects and collecting each call result. -/
def runCalls (w : World) : Nat → SingletonState → SingletonState × Effects × List (Option Nat)
  | 0, s => (s, noEffects, [])
  | n + 1, s =>
      let r := get_client w s
      let rest := runCalls w n r.2.1
      (rest.1, Effects.comb r.2.2 rest.2.1, r.1 :: rest.2.2)

/-- setup_auth mirrors the standalone setup function (client.py lines 54
to 86): missing credentials log an error and return False; the OAuth2 and
client constructions run inside try/except, any exception logging an
error and returning False; success returns True. -/
def setup_auth (w : World) : Bool × List CLog :=
  if !credsPresent w.creds then (false, [CLog.errMissingCreds])
  else
    match w.oauth2_ctor with
    | Except.error e => (false, [CLog.infoInitOAuth, CLog.errAuthFailed e])
    | Except.ok _ =>
      match w.client_ctor with
      | Except.error e =>
          (false, [CLog.infoInitOAuth, CLog.infoInitClient, CLog.errAuthFailed e])
      | Except.ok _ =>
          (true, [CLog.infoInitOAuth, CLog.infoInitClient, CLog.infoAuthSuccess])

/-- StdIn models the interactive input channel: whether sys.stdin.isatty()
holds, and what a blocking input(prompt) read would return. -/
structure StdIn where
  isAtty : Bool
  readLine : String → String

/-- mcpAuthErrorLines is the error_msg list built by
MCPFriendlyOAuth2._get_user_input (client.py lines 25 to 47). -/
def mcpAuthErrorLines : List String :=
  ["",
   String.mk (List.replicate 80 '='),
   "🔧 TICKTICK AUTHENTICATION REQUIRED",
   String.mk (List.replicate 80 '='),
   "The TickTick MCP server needs to authenticate with TickTick's API first.",
   "Since you're running this as an MCP server, interactive authentication cannot",
   "work because stdin/stdout are used for MCP protocol communication.",
   "",
   "SOLUTION: Run the setup command first in a separate terminal:",
   "",
   "  ticktick-mcp-setup",
   "",
   "This will handle the OAuth2 flow interactively and cache the authentication",
   "token. After that, the MCP server will work normally.",
   "",
   "If you don't have the setup command, you can also run:",
   "",
   "  python -c \"from ticktick_mcp.client import setup_auth; setup_auth()\"",
   "",
   String.mk (List.replicate 80 '='),
   ""]

/-- mcpAuthErrorMsg is the RuntimeError message raised in the
non-interactive branch: newline-join of mcpAuthErrorLines. -/
def mcpAuthErrorMsg : String := String.intercalate "\n" mcpAuthErrorLines

/-- _get_user_input mirrors MCPFriendlyOAuth2._get_user_input (client.py
lines 18 to 51): with stdin not a terminal it raises RuntimeError with the
message above before any read; with a terminal it performs one blocking
input(prompt) read. The Nat counts blocking reads performed. -/
def _get_user_input (stdin : StdIn) (prompt : String) : Except String String × Nat :=
  if !stdin.isAtty then
    (Except.error mcpAuthErrorMsg, 0)
  else
    (Except.ok (stdin.readLine prompt), 1)

/- ---------------------------------------------------------------------
helpers.py
--------------------------------------------------------------------- -/

/-- TickTickState models the module-level ticktick_client handle as the
helpers use it: each field is the outcome of one access on the remote
client, which may raise. state_projects is state.get of the projects key
(default the empty list), inbox_id is the inbox_id attribute (a string),
get_from_project is task.get_from_project for a given project id. -/
structure TickTickState where
  state_projects : Except String (List Proj)
  inbox_id : Except String String
  get_from_project : PyScalar → Except String PyVal

/-- AggLog is one log record emitted by helpers.py. -/
inductive AggLog where
  | errNotInit
  | errProjectsState (msg : String)
  | errInboxAccess (msg : String)
  | warnFetchFailed (pid : PyScalar) (msg : String)
  | warnUnexpectedType (pid : PyScalar)
deriving DecidableEq, Repr

/-- JsonLib abstracts the json module at the helper boundary: dumps is
json.dumps with indent 2 and default str applied to the dict or list
result (it may raise TypeError, the error the code catches); dumpsErrObj
and dumpsResultObj serialize the two fixed wrapper dicts of plain
strings, calls that always succeed in Python. json.dumps of None is the
fixed string null. -/
structure JsonLib where
  dumps : PyVal → Except String String
  dumpsErrObj : String → String
  dumpsResultObj : String → String

/-- format_response mirrors helpers.py lines 12 to 24: a dict or list is
serialized by json.dumps, a TypeError from that call being caught and
turned into the error wrapper object; None becomes null; anything else is
wrapped as a result object around its string form. -/
def format_response (lib : JsonLib) (result : PyVal) : String :=
  match result with
  | PyVal.dict _ | PyVal.list _ =>
    (match lib.dumps result with
     | Except.ok s => s
     | Except.error e => lib.dumpsErrObj e)
  | PyVal.pynone => "null"
  | other => lib.dumpsResultObj (pyStr other)

/-- notInitPayload is the error dict require_client formats when the
client is not initialized. -/
def notInitPayload : PyVal :=
  PyVal.dict [("error", PyVal.str "TickTick client not initialized.")]

/-- require_client mirrors the decorator wrapper (helpers.py lines 27 to
36): with a falsy module client it returns the formatted error payload
without running the wrapped tool body; otherwise it runs the body. The
logging calls of the wrapper are not modelled (no claim reads them). -/
def require_client (lib : JsonLib) (c? : Option TickTickState)
    (body : Unit → Except String String) : Except String String :=
  match c? with
  | none => Except.ok (format_response lib notInitPayload)
  | some _ => body ()

/-- setInsert models Python set.add on a set represented as a duplicate
free list in insertion order. -/
def setInsert (s : List PyScalar) (v : PyScalar) : List PyScalar :=
  if v ∈ s then s else s ++ [v]

/-- idFold folds the set comprehension over snapshot entries: each entry
contributes its id value when that value is truthy. -/
def idFold (acc : List PyScalar) (ps : List Proj) : List PyScalar :=
  ps.foldl (fun s p => if (pget p "id").truthy then setInsert s (pget p "id") else s) acc

/-- idSetOf mirrors the comprehension on helpers.py line 53 starting from
the empty set. -/
def idSetOf (ps : List Proj) : List PyScalar := idFold [] ps

/-- projectIdsOf mirrors helpers.py lines 46 to 58: read the project
snapshot inside try/except (an exception logs an error and leaves the
empty list), build the id set, then inside a second try/except add the
inbox id when it is truthy (an exception there logs an error and leaves
the set as built). -/
def projectIdsOf (c : TickTickState) : List PyScalar × List AggLog :=
  let snap := match c.state_projects with
    | Except.ok ps => (ps, ([] : List AggLog))
    | Except.error e => ([], [AggLog.errProjectsState e])
  let s := idSetOf snap.1
  match c.inbox_id with
  | Except.ok inbox =>
      (if (PyScalar.str inbox).truthy then setInsert s (PyScalar.str inbox) else s, snap.2)
  | Except.error e => (s, snap.2 ++ [AggLog.errInboxAccess e])

/-- fetchLoop mirrors the per-project loop (helpers.py lines 61 to 74):
each fetch that raises is logged with its project id and skipped; a
truthy list extends the accumulator, a truthy dict is appended as one
item, any other truthy shape is logged as unexpected; falsy results
contribute nothing. -/
def fetchLoop (c : TickTickState) : List PyScalar → List PyVal → List AggLog → List PyVal × List AggLog
  | [], acc, lg => (acc, lg)
  | pid :: rest, acc, lg =>
    match c.get_from_project pid with
    | Except.error e => fetchLoop c rest acc (lg ++ [AggLog.warnFetchFailed pid e])
    | Except.ok v =>
      if v.truthy then
        match v with
        | PyVal.list ts => fetchLoop c rest (acc ++ ts) lg
        | PyVal.dict fs => fetchLoop c rest (acc ++ [PyVal.dict fs]) lg
        | _ => fetchLoop c rest acc (lg ++ [AggLog.warnUnexpectedType pid])
      else fetchLoop c rest acc lg

/-- _get_all_tasks_from_ticktick mirrors helpers.py lines 39 to 76: with a
falsy module client it logs an error and raises ConnectionError; with a
client it builds the project id set and runs the fetch loop, returning
the accumulated tasks. -/
def _get_all_tasks_from_ticktick (c? : Option TickTickState) :
    Except String (List PyVal) × List AggLog :=
  match c? with
  | none => (Except.error "TickTick client not initialized.", [AggLog.errNotInit])
  | some c =>
    let pids := projectIdsOf c
    let r := fetchLoop c pids.1 [] []
    (Except.ok r.1, pids.2 ++ r.2)

/-- fetchContribution is what one project id contributes to the merged
task list, read off the loop body: all elements of a truthy list, the one
record of a truthy dict, nothing otherwise. -/
def fetchContribution (c : TickTickState) (pid : PyScalar) : List PyVal :=
  match c.get_from_project pid with
  | Except.error _ => []
  | Except.ok v =>
    if v.truthy then
      match v with
      | PyVal.list ts => ts
      | PyVal.dict fs => [PyVal.dict fs]
      | _ => []
    else []

/-- fetchLogOf is what one project id contributes to the log: a failure
record carrying the id when the fetch raises, an unexpected-type record
for a truthy value that is neither list nor dict, nothing otherwise. -/
def fetchLogOf (c : TickTickState) (pid : PyScalar) : List AggLog :=
  match c.get_from_project pid with
  | Except.error e => [AggLog.warnFetchFailed pid e]
  | Except.ok v =>
    if v.truthy then
      match v with
      | PyVal.list _ => []
      | PyVal.dict _ => []
      | _ => [AggLog.warnUnexpectedType pid]
    else []

/-- isDictList tests the isinstance(result, (dict, list)) branch condition. -/
def isDictList : PyVal → Bool
  | PyVal.dict _ => true
  | PyVal.list _ => true
  | _ => false

/-- isPyNone tests the result is None branch condition. -/
def isPyNone : PyVal → Bool
  | PyVal.pynone => true
  | _ => false

/-- format_response_spec is modelled from the words of the claim about the
response formatter, for comparison with the code translation: every dict
or list input yields its JSON serialization with a serialization failure
caught and converted to a JSON error object, a None input yields the JSON
null string, and any other input yields a JSON object wrapping the string
form of the value under the result key. -/
def format_response_spec (lib : JsonLib) (result : PyVal) : String :=
  if isDictList result then
    match lib.dumps result with
    | Except.ok s => s
    | Except.error e => lib.dumpsErrObj e
  else if isPyNone result then "null"
  else lib.dumpsResultObj (pyStr result)

/-- exceptIsOk is true exactly on non-raising outcomes. -/
def exceptIsOk {ε α : Type} : Except ε α → Bool
  | Except.ok _ => true
  | Except.error _ => false

/-- taskC1 is a concrete task record. -/
def taskC1 : PyVal := PyVal.dict [("id", PyVal.str "t1"), ("title", PyVal.str "Task one")]

/-- taskC2 is a concrete task record. -/
def taskC2 : PyVal := PyVal.dict [("id", PyVal.str "t2"), ("title", PyVal.str "Task two")]

/-- exampleClientC4 realizes the three-project scenario: fetching A
raises, B returns an empty list, C returns two records; the inbox id is A
(already listed). -/
def exampleClientC4 : TickTickState where
  state_projects := Except.ok
    [[("id", PyScalar.str "A")], [("id", PyScalar.str "B")], [("id", PyScalar.str "C")]]
  inbox_id := Except.ok "A"
  get_from_project := fun pid =>
    if pid = PyScalar.str "A" then Except.error "network down"
    else if pid = PyScalar.str "B" then Except.ok (PyVal.list [])
    else Except.ok (PyVal.list [taskC1, taskC2])

/-- exampleClientSingle realizes the bare-record scenario: the single
project fetch returns one dict record not wrapped in a list. -/
def exampleClientSingle : TickTickState where
  state_projects := Except.ok [[("id", PyScalar.str "P")]]
  inbox_id := Except.ok "P"
  get_from_project := fun _ => Except.ok taskC1

/-- specClientC5 realizes the snapshot P1, P2 with default project INBOX
not listed in the snapshot. -/
def specClientC5 : TickTickState where
  state_projects := Except.ok [[("id", PyScalar.str "P1")], [("id", PyScalar.str "P2")]]
  inbox_id := Except.ok "INBOX"
  get_from_project := fun _ => Except.ok (PyVal.list [])

/-- wOk is a process world with complete credentials and succeeding
constructions. -/
def wOk : World := ⟨⟨"id", "sec", "uri", "user", "pass"⟩, Except.ok (), Except.ok 7⟩

/-- wOauthFail is a process world with complete credentials whose OAuth2
construction raises. -/
def wOauthFail : World := ⟨⟨"id", "sec", "uri", "user", "pass"⟩, Except.error "boom", Except.ok 7⟩

/-- wNoId is a process world whose CLIENT_ID is absent. -/
def wNoId : World := ⟨⟨"", "sec", "uri", "user", "pass"⟩, Except.ok (), Except.ok 7⟩

/- ---------------------------------------------------------------------
Theorems
--------------------------------------------------------------------- -/

set_option maxRecDepth 10000 in
/-- mcpAuthErrorMsg contains the setup command name. -/
theorem mcpAuthErrorMsg_mentions_setup :
    strHasSub mcpAuthErrorMsg "ticktick-mcp-setup" = true := by decide

/-- Claim C1: with no interactive channel (stdin not a terminal), the user
input operation fails immediately with the error message that references
the separate setup command, and performs zero blocking reads; the outcome
does not depend on what a read would have returned. -/
theorem C1_noninteractive_guard (stdin : StdIn) (prompt : String)
    (h : stdin.isAtty = false) :
    _get_user_input stdin prompt = (Except.error mcpAuthErrorMsg, 0) ∧
    strHasSub mcpAuthErrorMsg "ticktick-mcp-setup" = true := by
  refine ⟨?_, mcpAuthErrorMsg_mentions_setup⟩
  simp [_get_user_input, h]

/-- Claim C1 witness at a concrete non-terminal stdin. -/
theorem C1_witness :
    (StdIn.mk false (fun _ => "code")).isAtty = false ∧
    _get_user_input (StdIn.mk false (fun _ => "code")) "Enter code: " =
      (Except.error mcpAuthErrorMsg, 0) :=
  ⟨rfl, (C1_noninteractive_guard (StdIn.mk false (fun _ => "code")) "Enter code: " rfl).1⟩

/-- Claim C3 counterexample: the aggregator invoked while the session is
unavailable does not hand the caller a structured payload; it raises (an
error outcome, not an ok payload). -/
theorem C3_counterexample :
    (_get_all_tasks_from_ticktick none).1 =
      Except.error "TickTick client not initialized." ∧
    exceptIsOk (_get_all_tasks_from_ticktick none).1 = false :=
  ⟨rfl, rfl⟩

/-- Claim C3 amended: a guard-wrapped tool operation invoked while the
session is unavailable receives the structured client-not-initialized
payload and its body is never run (the outcome is independent of the
body); the bare aggregator invoked while the session is unavailable fails
immediately by raising a client-not-initialized error, performing no
aggregation work (its whole outcome is that error and the one log
record). -/
theorem C3_unavailable_guard :
    (∀ (lib : JsonLib) (body : Unit → Except String String),
       require_client lib none body = Except.ok (format_response lib notInitPayload)) ∧
    (∀ (lib : JsonLib) (b1 b2 : Unit → Except String String),
       require_client lib none b1 = require_client lib none b2) ∧
    _get_all_tasks_from_ticktick none =
      (Except.error "TickTick client not initialized.", [AggLog.errNotInit]) :=
  ⟨fun _ _ => rfl, fun _ _ _ => rfl, rfl⟩

/-- Claim C10: the response formatter is total (a plain String function)
and agrees on every input with the formatter modelled from the claim
wording: dict or list inputs are serialized with the serialization
failure caught, None yields null, and every other value is wrapped as a
result object around its string form. -/
theorem C10_format_response_total (lib : JsonLib) (v : PyVal) :
    format_response lib v = format_response_spec lib v := by
  cases v <;> rfl

/-- singletonInit always leaves the initialized flag set (the finally
block), and an already-initialized state is returned unchanged. -/
theorem singletonInit_initialized (w : World) (s : SingletonState) :
    (singletonInit w s).1.initialized = true ∨ s.initialized = true := by
  unfold singletonInit
  split
  · next h => exact Or.inr (by simpa using h)
  · split
    · exact Or.inl rfl
    · cases w.oauth2_ctor
      · exact Or.inl rfl
      · cases w.client_ctor
        · exact Or.inl rfl
        · exact Or.inl rfl

/-- get_client on an already-initialized state returns the stored
instance, leaves the state unchanged and performs no checks or
construction attempts (only a possible warning log). -/
theorem get_client_stable (w : World) (s : SingletonState) (h : s.initialized = true) :
    get_client w s =
      (s.inst, s, ⟨0, 0, 0, if s.inst = none then [CLog.warnClientFailed] else []⟩) := by
  cases hs : s.inst <;> simp [get_client, h, hs, noEffects]

/-- runCalls from an already-initialized state returns the stored
instance every time, never touches the counters, and ends in the same
state. -/
theorem runCalls_stable (w : World) (n : Nat) (s : SingletonState) (h : s.initialized = true) :
    (runCalls w n s).1 = s ∧
    (runCalls w n s).2.1.credChecks = 0 ∧
    (runCalls w n s).2.1.oauthAttempts = 0 ∧
    (runCalls w n s).2.1.clientAttempts = 0 ∧
    (runCalls w n s).2.2 = List.replicate n s.inst := by
  induction n with
  | zero => simp [runCalls, noEffects]
  | succ m ih =>
    simp only [runCalls, get_client_stable w s h]
    obtain ⟨h1, h2, h3, h4, h5⟩ := ih
    refine ⟨h1, ?_, ?_, ?_, ?_⟩
    · simp [Effects.comb, h2]
    · simp [Effects.comb, h3]
    · simp [Effects.comb, h4]
    · simp [h5, List.replicate_succ]

/-- singletonInit performs at most one credential check and at most one
attempt of each construction. -/
theorem singletonInit_counters (w : World) (s : SingletonState) :
    (singletonInit w s).2.credChecks ≤ 1 ∧
    (singletonInit w s).2.oauthAttempts ≤ 1 ∧
    (singletonInit w s).2.clientAttempts ≤ 1 := by
  unfold singletonInit
  split
  · simp [noEffects]
  · split
    · simp
    · cases w.oauth2_ctor
      · simp
      · cases w.client_ctor <;> simp

/-- Claim C2: for every world and every N at least 1, N get_client calls
from the fresh process state return the replicated result of the single
initialization attempt, the total credential checks and construction
attempts over all N calls equal those of that single attempt (each at
most one), and the state after all calls is the state after the first
attempt - so a failed attempt is never retried and no network or file
I O repeats. -/
theorem C2_idempotent_accessor (w : World) (n : Nat) (h : 1 ≤ n) :
    (runCalls w n freshState).2.2 =
      List.replicate n (singletonInit w freshState).1.inst ∧
    (runCalls w n freshState).1 = (singletonInit w freshState).1 ∧
    (runCalls w n freshState).2.1.credChecks = (singletonInit w freshState).2.credChecks ∧
    (runCalls w n freshState).2.1.oauthAttempts = (singletonInit w freshState).2.oauthAttempts ∧
    (runCalls w n freshState).2.1.clientAttempts = (singletonInit w freshState).2.clientAttempts ∧
    (singletonInit w freshState).2.credChecks ≤ 1 ∧
    (singletonInit w freshState).2.oauthAttempts ≤ 1 ∧
    (singletonInit w freshState).2.clientAttempts ≤ 1 := by
  obtain ⟨m, rfl⟩ : ∃ m, n = m + 1 := ⟨n - 1, (Nat.succ_pred_eq_of_pos h).symm⟩
  have hs1 : (singletonInit w freshState).1.initialized = true := by
    rcases singletonInit_initialized w freshState with h' | h'
    · exact h'
    · simp [freshState] at h'
  have hf : freshState.initialized = false := rfl
  have hgc : get_client w freshState =
      ((singletonInit w freshState).1.inst, (singletonInit w freshState).1,
       ⟨(singletonInit w freshState).2.credChecks,
        (singletonInit w freshState).2.oauthAttempts,
        (singletonInit w freshState).2.clientAttempts,
        (singletonInit w freshState).2.logs ++
          (if (singletonInit w freshState).1.inst = none then [CLog.warnClientFailed] else [])⟩) := by
    cases hi : (singletonInit w freshState).1.inst <;>
      simp [get_client, hf, hi]
  obtain ⟨r1, r2, r3, r4, r5⟩ :=
    runCalls_stable w m (singletonInit w freshState).1 hs1
  obtain ⟨b1, b2, b3⟩ := singletonInit_counters w freshState
  simp only [runCalls, hgc]
  refine ⟨?_, r1, ?_, ?_, ?_, b1, b2, b3⟩
  · simp [r5, List.replicate_succ]
  · simp [Effects.comb, r2]
  · simp [Effects.comb, r3]
  · simp [Effects.comb, r4]

/-- Claim C2 witness: three calls in the all-success world return the
handle three times. -/
theorem C2_witness :
    (1 : Nat) ≤ 3 ∧
    (runCalls wOk 3 freshState).2.2 =
      List.replicate 3 (singletonInit wOk freshState).1.inst :=
  ⟨by decide, (C2_idempotent_accessor wOk 3 (by decide)).1⟩

/-- Claim C6: when credentials are present and either construction of the
initialization sequence raises, the session accessor catches the
exception, logs it, returns None, and ends in the unavailable
initialized state; nothing propagates (the accessor result is an
ordinary value). -/
theorem C6_init_exception_caught (w : World) (e : String)
    (hc : credsPresent w.creds = true)
    (h : w.oauth2_ctor = Except.error e ∨
         (w.oauth2_ctor = Except.ok () ∧ w.client_ctor = Except.error e)) :
    (get_client w freshState).1 = none ∧
    (get_client w freshState).2.1 = { inst := none, initialized := true } ∧
    CLog.errInitException e ∈ (get_client w freshState).2.2.logs := by
  rcases h with h | ⟨h1, h2⟩
  · simp [get_client, singletonInit, freshState, hc, h]
  · simp [get_client, singletonInit, freshState, hc, h1, h2]

/-- Claim C6 witness: the world whose OAuth2 construction raises. -/
theorem C6_witness :
    credsPresent wOauthFail.creds = true ∧
    (get_client wOauthFail freshState).1 = none :=
  ⟨by decide, (C6_init_exception_caught wOauthFail "boom" (by decide) (Or.inl rfl)).1⟩

/-- Claim C7: with any one of the five credential fields empty, the first
accessor call returns None without raising, marks initialization
attempted, logs the missing-credential error, performs the one
credential check and zero construction attempts (no network or file
I O). -/
theorem C7_missing_credential_guard (w : World)
    (h : w.creds.CLIENT_ID = "" ∨ w.creds.CLIENT_SECRET = "" ∨
         w.creds.REDIRECT_URI = "" ∨ w.creds.USERNAME = "" ∨ w.creds.PASSWORD = "") :
    (get_client w freshState).1 = none ∧
    (get_client w freshState).2.1 = { inst := none, initialized := true } ∧
    (get_client w freshState).2.2.credChecks = 1 ∧
    (get_client w freshState).2.2.oauthAttempts = 0 ∧
    (get_client w freshState).2.2.clientAttempts = 0 ∧
    CLog.errMissingCreds ∈ (get_client w freshState).2.2.logs := by
  have hc : credsPresent w.creds = false := by
    rcases h with h | h | h | h | h <;> simp [credsPresent, h]
  simp [get_client, singletonInit, freshState, hc]

/-- Claim C7 witness: the world with an empty CLIENT_ID. -/
theorem C7_witness :
    wNoId.creds.CLIENT_ID = "" ∧ (get_client wNoId freshState).1 = none :=
  ⟨rfl, (C7_missing_credential_guard wNoId (Or.inl rfl)).1⟩

/-- Claim C8: setup_auth reports success as a boolean (its type; no
exception can escape), succeeding exactly when the credentials are
present and both constructions succeed; missing credentials yield False
with the missing-credential error logged, and a raising construction
yields False with the authentication error logged. -/
theorem C8_setup_auth_reports (w : World) :
    ((setup_auth w).1 = true ↔
      (credsPresent w.creds = true ∧ w.oauth2_ctor = Except.ok () ∧
       ∃ h, w.client_ctor = Except.ok h)) ∧
    (credsPresent w.creds = false → setup_auth w = (false, [CLog.errMissingCreds])) ∧
    (∀ e, credsPresent w.creds = true → w.oauth2_ctor = Except.error e →
      (setup_auth w).1 = false ∧ CLog.errAuthFailed e ∈ (setup_auth w).2) ∧
    (∀ e, credsPresent w.creds = true → w.oauth2_ctor = Except.ok () →
      w.client_ctor = Except.error e →
      (setup_auth w).1 = false ∧ CLog.errAuthFailed e ∈ (setup_auth w).2) := by
  rcases w with ⟨creds, octor, cctor⟩
  by_cases hc : credsPresent creds = true
  · cases octor with
    | error e => simp [setup_auth, hc]
    | ok u => cases u; cases cctor <;> simp [setup_auth, hc]
  · have hc' : credsPresent creds = false := by simpa using hc
    cases octor <;> cases cctor <;> simp [setup_auth, hc']

/-- Claim C8 witness: setup succeeds in the all-success world. -/
theorem C8_witness : (setup_auth wOk).1 = true :=
  (C8_setup_auth_reports wOk).1.mpr ⟨by decide, rfl, ⟨7, rfl⟩⟩

/-- fetchLoop handles one project id as its per-project contribution and
log describe, then continues with the rest. -/
theorem fetchLoop_cons (c : TickTickState) (pid : PyScalar) (rest : List PyScalar)
    (acc : List PyVal) (lg : List AggLog) :
    fetchLoop c (pid :: rest) acc lg =
      fetchLoop c rest (acc ++ fetchContribution c pid) (lg ++ fetchLogOf c pid) := by
  simp only [fetchLoop, fetchContribution, fetchLogOf]
  cases c.get_from_project pid with
  | error e => simp
  | ok v =>
    cases v with
    | str s => by_cases h : s = "" <;> simp [PyVal.truthy, h]
    | dict fs => cases fs <;> simp [PyVal.truthy]
    | list ts => cases ts <;> simp [PyVal.truthy]
    | pynone => simp [PyVal.truthy]
    | pybool b => cases b <;> simp [PyVal.truthy]
    | pyint n => by_cases h : n = 0 <;> simp [PyVal.truthy, h]

/-- fetchLoop is the concatenation of the per-project contributions and
of the per-project log records, appended to what was already
accumulated. -/
theorem fetchLoop_eq (c : TickTickState) (ids : List PyScalar)
    (acc : List PyVal) (lg : List AggLog) :
    fetchLoop c ids acc lg =
      (acc ++ ids.flatMap (fetchContribution c), lg ++ ids.flatMap (fetchLogOf c)) := by
  induction ids generalizing acc lg with
  | nil => simp [fetchLoop]
  | cons pid rest ih =>
    rw [fetchLoop_cons, ih]
    simp [List.flatMap_cons, List.append_assoc]

/-- Claim C4: for every client and every project id set, the loop result
is exactly the concatenation of the per-project contributions (all
elements of a truthy list, the one record of a truthy bare dict, nothing
from a falsy result, nothing from a raising fetch or an unexpected
shape), with the log carrying one record per failed or unexpected fetch
naming the offending project id; in particular in the three-project
scenario (A raises, B empty, C two records) the aggregator returns
exactly those two records and logs one failure naming A, and a bare
single record contributes exactly that one item. -/
theorem C4_partial_failure_aggregation :
    (∀ (c : TickTickState) (ids : List PyScalar),
       fetchLoop c ids [] [] =
         (ids.flatMap (fetchContribution c), ids.flatMap (fetchLogOf c))) ∧
    _get_all_tasks_from_ticktick (some exampleClientC4) =
      (Except.ok [taskC1, taskC2],
       [AggLog.warnFetchFailed (PyScalar.str "A") "network down"]) ∧
    _get_all_tasks_from_ticktick (some exampleClientSingle) =
      (Except.ok [taskC1], []) := by
  refine ⟨fun c ids => ?_, rfl, rfl⟩
  simpa using fetchLoop_eq c ids [] []

/-- setInsert membership is membership in the old set or equality with
the inserted element. -/
theorem mem_setInsert (s : List PyScalar) (v w : PyScalar) :
    w ∈ setInsert s v ↔ w ∈ s ∨ w = v := by
  unfold setInsert
  split
  · next h =>
    constructor
    · exact fun hw => Or.inl hw
    · rintro (hw | rfl)
      · exact hw
      · exact h
  · simp

/-- setInsert preserves freedom from duplicates. -/
theorem nodup_setInsert (s : List PyScalar) (v : PyScalar) (h : s.Nodup) :
    (setInsert s v).Nodup := by
  unfold setInsert
  split
  · exact h
  · next hv => simp [List.nodup_append, h, hv]

/-- idFold over one more snapshot entry steps by conditionally inserting
that entry truthy id. -/
theorem idFold_cons (acc : List PyScalar) (p : Proj) (rest : List Proj) :
    idFold acc (p :: rest) =
      idFold (if (pget p "id").truthy then setInsert acc (pget p "id") else acc) rest := rfl

/-- idFold membership: an element is in the fold result exactly when it
was already accumulated or is the truthy id of some snapshot entry. -/
theorem mem_idFold (ps : List Proj) (acc : List PyScalar) (w : PyScalar) :
    w ∈ idFold acc ps ↔
      w ∈ acc ∨ ∃ p ∈ ps, pget p "id" = w ∧ w.truthy = true := by
  induction ps generalizing acc with
  | nil => simp [idFold]
  | cons p rest ih =>
    rw [idFold_cons]
    by_cases hp : (pget p "id").truthy = true
    · rw [if_pos hp, ih]
      constructor
      · rintro (h | ⟨q, hq, hid, ht⟩)
        · rcases (mem_setInsert acc _ w).mp h with h' | rfl
          · exact Or.inl h'
          · exact Or.inr ⟨p, List.mem_cons_self p rest, rfl, hp⟩
        · exact Or.inr ⟨q, List.mem_cons_of_mem p hq, hid, ht⟩
      · rintro (h | ⟨q, hq, hid, ht⟩)
        · exact Or.inl ((mem_setInsert acc _ w).mpr (Or.inl h))
        · rcases List.mem_cons.mp hq with rfl | hq'
          · exact Or.inl ((mem_setInsert acc _ w).mpr (Or.inr hid.symm))
          · exact Or.inr ⟨q, hq', hid, ht⟩
    · rw [if_neg hp, ih]
      constructor
      · rintro (h | ⟨q, hq, hid, ht⟩)
        · exact Or.inl h
        · exact Or.inr ⟨q, List.mem_cons_of_mem p hq, hid, ht⟩
      · rintro (h | ⟨q, hq, hid, ht⟩)
        · exact Or.inl h
        · rcases List.mem_cons.mp hq with rfl | hq'
          · exact absurd (hid ▸ ht) hp
          · exact Or.inr ⟨q, hq', hid, ht⟩

/-- idFold preserves freedom from duplicates. -/
theorem nodup_idFold (ps : List Proj) (acc : List PyScalar) (h : acc.Nodup) :
    (idFold acc ps).Nodup := by
  induction ps generalizing acc with
  | nil => exact h
  | cons p rest ih =>
    rw [idFold_cons]
    split
    · exact ih _ (nodup_setInsert _ _ h)
    · exact ih _ h

/-- projectIdsOf when both accesses succeed: the snapshot id set, with
the inbox id inserted when truthy. -/
theorem projectIdsOf_ok_ok (c : TickTickState) (ps : List Proj) (inbox : String)
    (h1 : c.state_projects = Except.ok ps) (h2 : c.inbox_id = Except.ok inbox) :
    (projectIdsOf c).1 =
      (if inbox != "" then setInsert (idSetOf ps) (PyScalar.str inbox) else idSetOf ps) := by
  simp [projectIdsOf, h1, h2, PyScalar.truthy]

/-- projectIdsOf when only the inbox access fails: the snapshot id set
alone. -/
theorem projectIdsOf_ok_err (c : TickTickState) (ps : List Proj) (e : String)
    (h1 : c.state_projects = Except.ok ps) (h2 : c.inbox_id = Except.error e) :
    (projectIdsOf c).1 = idSetOf ps := by
  simp [projectIdsOf, h1, h2]

/-- projectIdsOf when only the snapshot access fails: just the truthy
inbox id. -/
theorem projectIdsOf_err_ok (c : TickTickState) (e : String) (inbox : String)
    (h1 : c.state_projects = Except.error e) (h2 : c.inbox_id = Except.ok inbox) :
    (projectIdsOf c).1 = (if inbox != "" then [PyScalar.str inbox] else []) := by
  by_cases hi : (inbox != "") = true <;>
    simp [projectIdsOf, h1, h2, PyScalar.truthy, hi, idSetOf, idFold, setInsert]

/-- projectIdsOf when both accesses fail: the empty set. -/
theorem projectIdsOf_err_err (c : TickTickState) (e e2 : String)
    (h1 : c.state_projects = Except.error e) (h2 : c.inbox_id = Except.error e2) :
    (projectIdsOf c).1 = [] := by
  simp [projectIdsOf, h1, h2, idSetOf, idFold]

/-- Claim C5: the fetched identifier set is duplicate free; it is the
union of the identifiers found in the snapshot (an element is in the
snapshot id set exactly when some entry carries it as a truthy id) and
of the truthy default inbox identifier; and the two accesses are guarded
independently, a failing snapshot access leaving the inbox identifier
alone, a failing inbox access leaving the snapshot set alone, and both
failing leaving the empty set. -/
theorem C5_project_id_set (c : TickTickState) :
    (projectIdsOf c).1.Nodup ∧
    (∀ (ps : List Proj) (v : PyScalar),
      (v ∈ idSetOf ps ↔ ∃ p ∈ ps, pget p "id" = v ∧ v.truthy = true)) ∧
    (∀ (ps : List Proj) (inbox : String) (v : PyScalar),
      c.state_projects = Except.ok ps → c.inbox_id = Except.ok inbox →
      (v ∈ (projectIdsOf c).1 ↔
        v ∈ idSetOf ps ∨ (inbox ≠ "" ∧ v = PyScalar.str inbox))) ∧
    (∀ (e : String) (inbox : String),
      c.state_projects = Except.error e → c.inbox_id = Except.ok inbox →
      (projectIdsOf c).1 = (if inbox != "" then [PyScalar.str inbox] else [])) ∧
    (∀ (ps : List Proj) (e : String),
      c.state_projects = Except.ok ps → c.inbox_id = Except.error e →
      (projectIdsOf c).1 = idSetOf ps) ∧
    (∀ (e e2 : String),
      c.state_projects = Except.error e → c.inbox_id = Except.error e2 →
      (projectIdsOf c).1 = []) := by
  have hnod : ∀ ps : List Proj, (idSetOf ps).Nodup :=
    fun ps => nodup_idFold ps [] List.nodup_nil
  refine ⟨?_, ?_, ?_, ?_, ?_, ?_⟩
  · cases h1 : c.state_projects with
    | ok ps =>
      cases h2 : c.inbox_id with
      | ok inbox =>
        rw [projectIdsOf_ok_ok c ps inbox h1 h2]
        split
        · exact nodup_setInsert _ _ (hnod ps)
        · exact hnod ps
      | error e =>
        rw [projectIdsOf_ok_err c ps e h1 h2]
        exact hnod ps
    | error e =>
      cases h2 : c.inbox_id with
      | ok inbox =>
        rw [projectIdsOf_err_ok c e inbox h1 h2]
        split <;> simp
      | error e2 =>
        rw [projectIdsOf_err_err c e e2 h1 h2]
        simp
  · intro ps v
    simpa [idSetOf] using mem_idFold ps [] v
  · intro ps inbox v h1 h2
    rw [projectIdsOf_ok_ok c ps inbox h1 h2]
    by_cases hi : inbox = ""
    · simp [hi]
    · rw [if_pos (by simp [hi] : (inbox != "") = true), mem_setInsert]
      simp [hi]
  · exact fun e inbox h1 h2 => projectIdsOf_err_ok c e inbox h1 h2
  · exact fun ps e h1 h2 => projectIdsOf_ok_err c ps e h1 h2
  · exact fun e e2 h1 h2 => projectIdsOf_err_err c e e2 h1 h2

/-- Claim C5 witness: with snapshot projects P1, P2 and default INBOX not
listed in the snapshot, the fetched set contains both INBOX and P1. -/
theorem C5_witness :
    PyScalar.str "INBOX" ∈ (projectIdsOf specClientC5).1 ∧
    PyScalar.str "P1" ∈ (projectIdsOf specClientC5).1 :=
  have h := (C5_project_id_set specClientC5).2.2.1
    [[("id", PyScalar.str "P1")], [("id", PyScalar.str "P2")]] "INBOX"
  ⟨(h (PyScalar.str "INBOX") rfl rfl).mpr (Or.inr ⟨by decide, rfl⟩),
   (h (PyScalar.str "P1") rfl rfl).mpr (Or.inl (by decide))⟩

/-- Claim C9: every identifier in the fetched set is truthy: entries
without an id or with a falsy id are excluded, and a falsy inbox id is
never added. -/
theorem C9_ids_truthy (c : TickTickState) (v : PyScalar)
    (h : v ∈ (projectIdsOf c).1) : v.truthy = true := by
  have hid : ∀ ps : List Proj, v ∈ idSetOf ps → v.truthy = true := by
    intro ps hv
    rcases (mem_idFold ps [] v).mp (by simpa [idSetOf] using hv) with h' | ⟨p, _, _, ht⟩
    · simp at h'
    · exact ht
  cases h1 : c.state_projects with
  | ok ps =>
    cases h2 : c.inbox_id with
    | ok inbox =>
      rw [projectIdsOf_ok_ok c ps inbox h1 h2] at h
      by_cases hi : (inbox != "") = true
      · rw [if_pos hi] at h
        rcases (mem_setInsert _ _ _).mp h with h' | rfl
        · exact hid ps h'
        · simpa [PyScalar.truthy] using hi
      · rw [if_neg hi] at h
        exact hid ps h
    | error e =>
      rw [projectIdsOf_ok_err c ps e h1 h2] at h
      exact hid ps h
  | error e =>
    cases h2 : c.inbox_id with
    | ok inbox =>
      rw [projectIdsOf_err_ok c e inbox h1 h2] at h
      by_cases hi : (inbox != "") = true
      · rw [if_pos hi] at h
        rcases List.mem_singleton.mp h with rfl
        simpa [PyScalar.truthy] using hi
      · rw [if_neg hi] at h
        simp at h
    | error e2 =>
      rw [projectIdsOf_err_err c e e2 h1 h2] at h
      simp at h

/-- Claim C9 witness: the id A of the three-project client is in the set
and truthy. -/
theorem C9_witness :
    PyScalar.str "A" ∈ (projectIdsOf exampleClientC4).1 ∧
    (PyScalar.str "A").truthy = true :=
  ⟨by decide, C9_ids_truthy exampleClientC4 (PyScalar.str "A") (by decide)⟩
